import Mathlib

/-!
Verification of the mentor-student API (Express + Mongoose document store).

The embedding models the document store as two lists of documents keyed by
string identifiers.  `findById` is `List.find?` on the id field and `save`
replaces the matching document in place, mirroring Mongoose's
`Model.findById` / `doc.save()` on the handlers' in-memory documents.
Each HTTP handler becomes a pure function from a store (and the path
parameters) to a response value together with the resulting store.
-/

namespace MentorStudentApi

/-- Document identifiers (Mongo ObjectId strings / generated tokens). -/
abbrev DocId := String

/-- A Mentor document: `name` and the `students` array of Student ids
(schema `mentorSchema`). -/
structure Mentor where
  id : DocId
  name : String
  students : List DocId
deriving Repr, DecidableEq

/-- A Student document: `name`, optional `mentor` reference and optional
`previousMentor` reference (schema `studentSchema`). -/
structure Student where
  id : DocId
  name : String
  mentor : Option DocId
  previousMentor : Option DocId
deriving Repr, DecidableEq

/-- The document store: the Mentors and Students collections. -/
structure Store where
  mentors : List Mentor
  students : List Student
deriving Repr, DecidableEq

/-- `Mentor.findById(mid)`: the first mentor document with the given id,
or `none` when the id does not resolve. -/
def findMentorById (st : Store) (mid : DocId) : Option Mentor :=
  st.mentors.find? (fun m => m.id == mid)

/-- `Student.findById(sid)`: the first student document with the given id,
or `none` when the id does not resolve. -/
def findStudentById (st : Store) (sid : DocId) : Option Student :=
  st.students.find? (fun s => s.id == sid)

/-- `mentor.save()`: persist an (updated) mentor document, replacing the
stored document with the same id. -/
def saveMentor (st : Store) (m : Mentor) : Store :=
  { st with mentors := st.mentors.map (fun x => if x.id == m.id then m else x) }

/-- `student.save()`: persist an (updated) student document, replacing the
stored document with the same id. -/
def saveStudent (st : Store) (s : Student) : Store :=
  { st with students := st.students.map (fun x => if x.id == s.id then s else x) }

/-- Outcome of `POST /mentors/:mentorId/students/:studentId`. -/
inductive AssignResult where
  | notFound
  | alreadyAssigned
  | ok (mentor : Mentor)
deriving Repr, DecidableEq

/-- HTTP status the assignment handler sends for each outcome. -/
def AssignResult.httpStatus : AssignResult → Nat
  | .notFound => 404
  | .alreadyAssigned => 400
  | .ok _ => 200

/-- The `POST /mentors/:mentorId/students/:studentId` handler: fetch both
documents, 404 if either is missing, 400 if the student already has a
mentor; otherwise set `student.mentor = mentor._id`, save the student,
push `student._id` onto `mentor.students`, save the mentor, and respond
with the updated mentor. -/
def assignStudentToMentor (st : Store) (mentorId studentId : DocId) :
    AssignResult × Store :=
  match findMentorById st mentorId, findStudentById st studentId with
  | some mentor, some student =>
    match student.mentor with
    | some _ => (.alreadyAssigned, st)
    | none =>
      let student' := { student with mentor := some mentor.id }
      let st1 := saveStudent st student'
      let mentor' := { mentor with students := mentor.students ++ [student.id] }
      let st2 := saveMentor st1 mentor'
      (.ok mentor', st2)
  | _, _ => (.notFound, st)

/-- Outcome of `PUT /students/:studentId/mentor/:mentorId`. -/
inductive ReassignResult where
  | notFound
  | ok (student : Student)
deriving Repr, DecidableEq

/-- HTTP status the reassignment handler sends for each outcome. -/
def ReassignResult.httpStatus : ReassignResult → Nat
  | .notFound => 404
  | .ok _ => 200

/-- The `PUT /students/:studentId/mentor/:mentorId` handler: fetch both
documents, 404 if either is missing; if the student currently has a
mentor copy it into `previousMentor`; set `student.mentor = newMentor._id`,
save the student, push `student._id` onto `newMentor.students`, save the
mentor, and respond with the updated student. -/
def reassignStudentMentor (st : Store) (studentId mentorId : DocId) :
    ReassignResult × Store :=
  match findStudentById st studentId, findMentorById st mentorId with
  | some student, some newMentor =>
    let student1 :=
      match student.mentor with
      | some cur => { student with previousMentor := some cur }
      | none => student
    let student' := { student1 with mentor := some newMentor.id }
    let st1 := saveStudent st student'
    let newMentor' := { newMentor with students := newMentor.students ++ [student.id] }
    let st2 := saveMentor st1 newMentor'
    (.ok student', st2)
  | _, _ => (.notFound, st)

/-- Outcome of a read-only query endpoint. -/
inductive QueryResult (α : Type) where
  | notFound
  | ok (value : α)
deriving Repr, DecidableEq

/-- HTTP status a query endpoint sends for each outcome. -/
def QueryResult.httpStatus : QueryResult α → Nat
  | .notFound => 404
  | .ok _ => 200

/-- The `GET /mentors/:mentorId/students` handler: resolve the mentor and
`populate('students')`, expanding each id in `mentor.students` into the
referenced Student document (ids that do not resolve are dropped from the
populated array, Mongoose's behaviour for array references). -/
def studentsForMentor (st : Store) (mentorId : DocId) :
    QueryResult (List Student) :=
  match findMentorById st mentorId with
  | none => .notFound
  | some mentor => .ok (mentor.students.filterMap (findStudentById st))

/-- The `GET /students/:studentId/previous-mentor` handler: resolve the
student and `populate('previousMentor')`, expanding the reference into the
full Mentor document, or `none` (serialized as null/absent) when the
student has no previous mentor. -/
def previousMentorForStudent (st : Store) (studentId : DocId) :
    QueryResult (Option Mentor) :=
  match findStudentById st studentId with
  | none => .notFound
  | some student => .ok (student.previousMentor.bind (findMentorById st))

/-- Caller-supplied body for `POST /mentors`: any subset of the schema
paths of `mentorSchema` (Mongoose assigns every schema path present in
`req.body`). -/
structure MentorInput where
  id : Option DocId := none
  name : Option String := none
  students : List DocId := []
deriving Repr, DecidableEq

/-- Caller-supplied body for `POST /students`: any subset of the schema
paths of `studentSchema`. -/
structure StudentInput where
  id : Option DocId := none
  name : Option String := none
  mentor : Option DocId := none
  previousMentor : Option DocId := none
deriving Repr, DecidableEq

/-- The `POST /mentors` handler: `new Mentor(req.body)` assigns every
schema path supplied by the caller, the `_id` default generator supplies
`freshId` when the body carries no `_id`; `save()` inserts the document
and the handler responds 201 with it. -/
def createMentor (st : Store) (freshId : DocId) (input : MentorInput) :
    Mentor × Store :=
  let m : Mentor :=
    { id := input.id.getD freshId
      name := input.name.getD ""
      students := input.students }
  (m, { st with mentors := st.mentors ++ [m] })

/-- The `POST /students` handler: `new Student(req.body)` assigns every
schema path supplied by the caller, the `_id` default generator supplies
`freshId` when the body carries no `_id`; `save()` inserts the document
and the handler responds 201 with it. -/
def createStudent (st : Store) (freshId : DocId) (input : StudentInput) :
    Student × Store :=
  let s : Student :=
    { id := input.id.getD freshId
      name := input.name.getD ""
      mentor := input.mentor
      previousMentor := input.previousMentor }
  (s, { st with students := st.students ++ [s] })

/-- The bidirectional consistency invariant of the data model: every id in
a mentor's `students` array references an existing student whose `mentor`
field equals that mentor's id. -/
def bidirConsistent (st : Store) : Prop :=
  ∀ m ∈ st.mentors, ∀ sid ∈ m.students,
    ∃ s, findStudentById st sid = some s ∧ s.mentor = some m.id

/-! ### Lookup / save interaction lemmas -/

/-- `find?` is unchanged by a map that replaces only elements the predicate
rejects, and fixes the elements it accepts. -/
theorem find?_map_skip {α : Type} (q : α → Bool) (f : α → α) (l : List α)
    (h1 : ∀ x ∈ l, q (f x) = q x) (h2 : ∀ x ∈ l, q x = true → f x = x) :
    (l.map f).find? q = l.find? q := by
  induction l with
  | nil => rfl
  | cons a as ih =>
    have ha1 := h1 a (List.mem_cons_self a as)
    have ha2 := h2 a (List.mem_cons_self a as)
    cases hq : q a with
    | true =>
      rw [List.map_cons, List.find?_cons_of_pos _ (by rw [ha1, hq]),
        List.find?_cons_of_pos _ hq, ha2 hq]
    | false =>
      rw [List.map_cons, List.find?_cons_of_neg _ (by simp [ha1, hq]),
        List.find?_cons_of_neg _ (by simp [hq])]
      exact ih (fun x hx => h1 x (List.mem_cons_of_mem a hx))
        (fun x hx => h2 x (List.mem_cons_of_mem a hx))

/-- `find?` after a map that sends every accepted element to a fixed
accepted value `v` and fixes every rejected element: the result is the
original result with its value replaced by `v`. -/
theorem find?_map_replace {α : Type} (q : α → Bool) (f : α → α) (v : α)
    (l : List α)
    (hT : ∀ x ∈ l, q x = true → f x = v)
    (hF : ∀ x ∈ l, q x = false → f x = x)
    (hv : q v = true) :
    (l.map f).find? q = (l.find? q).map (fun _ => v) := by
  induction l with
  | nil => rfl
  | cons a as ih =>
    have haT := hT a (List.mem_cons_self a as)
    have haF := hF a (List.mem_cons_self a as)
    cases hq : q a with
    | true =>
      rw [List.map_cons, haT hq, List.find?_cons_of_pos _ hv,
        List.find?_cons_of_pos _ hq]
      rfl
    | false =>
      rw [List.map_cons, haF hq, List.find?_cons_of_neg _ (by simp [hq]),
        List.find?_cons_of_neg _ (by simp [hq])]
      exact ih (fun x hx => hT x (List.mem_cons_of_mem a hx))
        (fun x hx => hF x (List.mem_cons_of_mem a hx))

/-- A resolved student document carries the id it was looked up by. -/
theorem findStudentById_id {st : Store} {sid : DocId} {s : Student}
    (h : findStudentById st sid = some s) : s.id = sid := by
  have := List.find?_some h
  simpa using this

/-- A resolved mentor document carries the id it was looked up by. -/
theorem findMentorById_id {st : Store} {mid : DocId} {m : Mentor}
    (h : findMentorById st mid = some m) : m.id = mid := by
  have := List.find?_some h
  simpa using this

/-- Looking up the saved student's own id returns the saved document
(whenever the id resolved before). -/
theorem findStudentById_saveStudent_self (st : Store) (s : Student)
    (sid : DocId) (h : s.id = sid) :
    findStudentById (saveStudent st s) sid
      = (findStudentById st sid).map (fun _ => s) := by
  subst h
  unfold findStudentById saveStudent
  apply find?_map_replace
  · intro x _ hx
    simp only [hx, if_true]
  · intro x _ hx
    simp only [hx, Bool.false_eq_true, if_false]
  · simp

/-- Saving a student leaves every other student id's lookup unchanged. -/
theorem findStudentById_saveStudent_other (st : Store) (s : Student)
    (sid : DocId) (h : sid ≠ s.id) :
    findStudentById (saveStudent st s) sid = findStudentById st sid := by
  unfold findStudentById saveStudent
  apply find?_map_skip
  · intro x _
    by_cases hx : x.id = s.id
    · simp [hx, Ne.symm h]
    · simp [hx]
  · intro x _ hx
    have hxid : x.id = sid := by simpa using hx
    have hne : (x.id == s.id) = false := by
      simp only [hxid, beq_eq_false_iff_ne, ne_eq]
      exact h
    simp [hne]

/-- Looking up the saved mentor's own id returns the saved document
(whenever the id resolved before). -/
theorem findMentorById_saveMentor_self (st : Store) (m : Mentor)
    (mid : DocId) (h : m.id = mid) :
    findMentorById (saveMentor st m) mid
      = (findMentorById st mid).map (fun _ => m) := by
  subst h
  unfold findMentorById saveMentor
  apply find?_map_replace
  · intro x _ hx
    simp only [hx, if_true]
  · intro x _ hx
    simp only [hx, Bool.false_eq_true, if_false]
  · simp

/-- Saving a mentor leaves every other mentor id's lookup unchanged. -/
theorem findMentorById_saveMentor_other (st : Store) (m : Mentor)
    (mid : DocId) (h : mid ≠ m.id) :
    findMentorById (saveMentor st m) mid = findMentorById st mid := by
  unfold findMentorById saveMentor
  apply find?_map_skip
  · intro x _
    by_cases hx : x.id = m.id
    · simp [hx, Ne.symm h]
    · simp [hx]
  · intro x _ hx
    have hxid : x.id = mid := by simpa using hx
    have hne : (x.id == m.id) = false := by
      simp only [hxid, beq_eq_false_iff_ne, ne_eq]
      exact h
    simp [hne]

/-- Saving a student never touches the Mentors collection. -/
theorem findMentorById_saveStudent (st : Store) (s : Student) (mid : DocId) :
    findMentorById (saveStudent st s) mid = findMentorById st mid := rfl

/-- Saving a mentor never touches the Students collection. -/
theorem findStudentById_saveMentor (st : Store) (m : Mentor) (sid : DocId) :
    findStudentById (saveMentor st m) sid = findStudentById st sid := rfl

/-! ### Sample documents for concrete evaluations -/

/-- Sample mentor "Ada" with an empty roster. -/
def mAda : Mentor := { id := "M1", name := "Ada", students := [] }

/-- Sample mentor "Grace" with an empty roster. -/
def mGrace : Mentor := { id := "M2", name := "Grace", students := [] }

/-- Sample mentor "Alan" with an empty roster. -/
def mAlan : Mentor := { id := "M3", name := "Alan", students := [] }

/-- Sample unassigned student "Lin". -/
def sLin : Student := { id := "S1", name := "Lin", mentor := none, previousMentor := none }

/-- Sample unassigned student "Kai". -/
def sKai : Student := { id := "S2", name := "Kai", mentor := none, previousMentor := none }

/-- Sample store with three mentors and two unassigned students. -/
def st0 : Store := { mentors := [mAda, mGrace, mAlan], students := [sLin, sKai] }

/-! ### Evaluation lemmas for the handlers -/

/-- The assignment handler when a lookup fails: 404, store untouched. -/
theorem assign_eq_notFound (st : Store) (mid sid : DocId)
    (h : findMentorById st mid = none ∨ findStudentById st sid = none) :
    assignStudentToMentor st mid sid = (.notFound, st) := by
  unfold assignStudentToMentor
  rcases h with h | h
  · rw [h]
  · rw [h]
    cases findMentorById st mid <;> rfl

/-- The assignment handler when the student already has a mentor: 400,
store untouched. -/
theorem assign_eq_already (st : Store) (mid sid : DocId)
    (m : Mentor) (s : Student) (v : DocId)
    (hm : findMentorById st mid = some m)
    (hs : findStudentById st sid = some s)
    (hv : s.mentor = some v) :
    assignStudentToMentor st mid sid = (.alreadyAssigned, st) := by
  unfold assignStudentToMentor
  rw [hm, hs]
  simp only [hv]

/-- The assignment handler on the happy path: the two saves and the
response, spelled out. -/
theorem assign_eq_ok (st : Store) (mid sid : DocId)
    (m : Mentor) (s : Student)
    (hm : findMentorById st mid = some m)
    (hs : findStudentById st sid = some s)
    (hun : s.mentor = none) :
    assignStudentToMentor st mid sid
      = (.ok { m with students := m.students ++ [sid] },
         saveMentor (saveStudent st { s with mentor := some mid })
           { m with students := m.students ++ [sid] }) := by
  have hsid : s.id = sid := findStudentById_id hs
  have hmid : m.id = mid := findMentorById_id hm
  unfold assignStudentToMentor
  rw [hm, hs]
  simp only [hun, hsid, hmid]

/-- The reassignment handler when a lookup fails: 404, store untouched. -/
theorem reassign_eq_notFound (st : Store) (sid mid : DocId)
    (h : findStudentById st sid = none ∨ findMentorById st mid = none) :
    reassignStudentMentor st sid mid = (.notFound, st) := by
  unfold reassignStudentMentor
  rcases h with h | h
  · rw [h]
  · rw [h]
    cases findStudentById st sid <;> rfl

/-- The reassignment handler on a student with a current mentor: archive
it into `previousMentor`, then the two saves and the response. -/
theorem reassign_eq_assigned (st : Store) (sid mid : DocId)
    (s : Student) (m : Mentor) (cur : DocId)
    (hs : findStudentById st sid = some s)
    (hm : findMentorById st mid = some m)
    (hcur : s.mentor = some cur) :
    reassignStudentMentor st sid mid
      = (.ok { s with mentor := some mid, previousMentor := some cur },
         saveMentor (saveStudent st { s with mentor := some mid, previousMentor := some cur })
           { m with students := m.students ++ [sid] }) := by
  have hsid : s.id = sid := findStudentById_id hs
  have hmid : m.id = mid := findMentorById_id hm
  unfold reassignStudentMentor
  rw [hs, hm]
  simp only [hcur, hsid, hmid]

/-- The reassignment handler on a student with no current mentor:
`previousMentor` untouched, then the two saves and the response. -/
theorem reassign_eq_unassigned (st : Store) (sid mid : DocId)
    (s : Student) (m : Mentor)
    (hs : findStudentById st sid = some s)
    (hm : findMentorById st mid = some m)
    (hun : s.mentor = none) :
    reassignStudentMentor st sid mid
      = (.ok { s with mentor := some mid },
         saveMentor (saveStudent st { s with mentor := some mid })
           { m with students := m.students ++ [sid] }) := by
  have hsid : s.id = sid := findStudentById_id hs
  have hmid : m.id = mid := findMentorById_id hm
  unfold reassignStudentMentor
  rw [hs, hm]
  simp only [hun, hsid, hmid]

/-- Student lookup after the save-student-then-save-mentor sequence both
handlers perform. -/
theorem findStudent_after_both_saves (st : Store) (s s' : Student)
    (m' : Mentor) (sid : DocId)
    (hs : findStudentById st sid = some s) (hid : s'.id = sid) :
    findStudentById (saveMentor (saveStudent st s') m') sid = some s' := by
  rw [findStudentById_saveMentor, findStudentById_saveStudent_self _ _ sid hid, hs]
  rfl

/-- Mentor lookup (at the saved mentor's id) after the
save-student-then-save-mentor sequence both handlers perform. -/
theorem findMentor_after_both_saves (st : Store) (s' : Student)
    (m m' : Mentor) (mid : DocId)
    (hm : findMentorById st mid = some m) (hid : m'.id = mid) :
    findMentorById (saveMentor (saveStudent st s') m') mid = some m' := by
  rw [findMentorById_saveMentor_self _ _ mid hid, findMentorById_saveStudent, hm]
  rfl

/-! ### Claims -/

/-- C1: when `mentorId` resolves to mentor `m` and `studentId` resolves to
student `s` whose `mentor` field is unset, `assignStudentToMentor` responds
with the updated Mentor document (roster extended by `studentId`), and in
the resulting store the student's `mentor` field is `mentorId` and the
mentor's `students` set contains `studentId`. -/
theorem assign_unassigned_ok (st : Store) (mid sid : DocId)
    (m : Mentor) (s : Student)
    (hm : findMentorById st mid = some m)
    (hs : findStudentById st sid = some s)
    (hun : s.mentor = none) :
    (assignStudentToMentor st mid sid).1
        = .ok { m with students := m.students ++ [sid] }
      ∧ findStudentById (assignStudentToMentor st mid sid).2 sid
        = some { s with mentor := some mid }
      ∧ findMentorById (assignStudentToMentor st mid sid).2 mid
        = some { m with students := m.students ++ [sid] }
      ∧ sid ∈ ({ m with students := m.students ++ [sid] } : Mentor).students := by
  have hres := assign_eq_ok st mid sid m s hm hs hun
  refine ⟨by rw [hres], ?_, ?_, by simp⟩
  · rw [hres]
    exact findStudent_after_both_saves st s _ _ sid hs
      (by simp [findStudentById_id hs])
  · rw [hres]
    exact findMentor_after_both_saves st _ m _ mid hm
      (by simp [findMentorById_id hm])

/-- Witness for C1 at a concrete store: assigning unassigned student "S1"
to mentor "M1" in the sample store. -/
theorem assign_unassigned_ok_witness :
    (findMentorById st0 "M1" = some mAda
      ∧ findStudentById st0 "S1" = some sLin
      ∧ sLin.mentor = none)
    ∧ ((assignStudentToMentor st0 "M1" "S1").1
          = .ok { mAda with students := mAda.students ++ ["S1"] }
        ∧ findStudentById (assignStudentToMentor st0 "M1" "S1").2 "S1"
          = some { sLin with mentor := some "M1" }
        ∧ findMentorById (assignStudentToMentor st0 "M1" "S1").2 "M1"
          = some { mAda with students := mAda.students ++ ["S1"] }
        ∧ "S1" ∈ ({ mAda with students := mAda.students ++ ["S1"] } : Mentor).students) :=
  ⟨⟨by decide, by decide, by decide⟩,
    assign_unassigned_ok st0 "M1" "S1" mAda sLin (by decide) (by decide) (by decide)⟩

/-- C2: when both ids resolve and the student's `mentor` field is already
set, `assignStudentToMentor` answers AlreadyAssigned (HTTP 400) and leaves
the store untouched; consequently a second assignment of the same student
(through any mentor id that resolves afterwards) answers AlreadyAssigned. -/
theorem assign_already_assigned (st : Store) (mid sid : DocId)
    (m : Mentor) (s : Student)
    (hm : findMentorById st mid = some m)
    (hs : findStudentById st sid = some s) :
    (∀ v, s.mentor = some v →
       assignStudentToMentor st mid sid = (.alreadyAssigned, st)
         ∧ (assignStudentToMentor st mid sid).1.httpStatus = 400)
    ∧ (s.mentor = none →
        ∀ mid2 m2,
          findMentorById (assignStudentToMentor st mid sid).2 mid2 = some m2 →
          assignStudentToMentor (assignStudentToMentor st mid sid).2 mid2 sid
            = (.alreadyAssigned, (assignStudentToMentor st mid sid).2)) := by
  constructor
  · intro v hv
    have h := assign_eq_already st mid sid m s v hm hs hv
    exact ⟨h, by rw [h]; rfl⟩
  · intro hun mid2 m2 hm2
    have hres := assign_eq_ok st mid sid m s hm hs hun
    have hs' : findStudentById (assignStudentToMentor st mid sid).2 sid
        = some { s with mentor := some mid } := by
      rw [hres]
      exact findStudent_after_both_saves st s _ _ sid hs
        (by simp [findStudentById_id hs])
    exact assign_eq_already _ mid2 sid m2 _ mid hm2 hs' rfl

/-- Witness for C2: after assigning "S1" to "M1" in the sample store, a
second assignment of "S1" (to mentor "M2") answers AlreadyAssigned. -/
theorem assign_already_assigned_witness :
    (findMentorById st0 "M1" = some mAda
      ∧ findStudentById st0 "S1" = some sLin
      ∧ sLin.mentor = none
      ∧ findMentorById (assignStudentToMentor st0 "M1" "S1").2 "M2" = some mGrace)
    ∧ assignStudentToMentor (assignStudentToMentor st0 "M1" "S1").2 "M2" "S1"
        = (.alreadyAssigned, (assignStudentToMentor st0 "M1" "S1").2) :=
  ⟨⟨by decide, by decide, by decide, by decide⟩,
    (assign_already_assigned st0 "M1" "S1" mAda sLin (by decide) (by decide)).2
      (by decide) "M2" mGrace (by decide)⟩

/-- C3: when both ids resolve, reassignment of a student currently
assigned to `m1` archives `m1` into `previousMentor` (overwriting it) and
sets `mentor` to the new mentor id, responding with the updated Student
document; a second reassignment overwrites `previousMentor` with the
second mentor id (single-slot history); a student with no current mentor
keeps their `previousMentor` unchanged. -/
theorem reassign_single_slot_history (st : Store) (sid m2id : DocId)
    (s : Student) (m2 : Mentor)
    (hs : findStudentById st sid = some s)
    (hm2 : findMentorById st m2id = some m2) :
    (∀ m1id, s.mentor = some m1id →
       (reassignStudentMentor st sid m2id).1
           = .ok { s with mentor := some m2id, previousMentor := some m1id }
         ∧ findStudentById (reassignStudentMentor st sid m2id).2 sid
           = some { s with mentor := some m2id, previousMentor := some m1id }
         ∧ ∀ m3id m3,
             findMentorById (reassignStudentMentor st sid m2id).2 m3id = some m3 →
             (reassignStudentMentor (reassignStudentMentor st sid m2id).2 sid m3id).1
               = .ok { s with mentor := some m3id, previousMentor := some m2id })
    ∧ (s.mentor = none →
        (reassignStudentMentor st sid m2id).1
            = .ok { s with mentor := some m2id }
          ∧ findStudentById (reassignStudentMentor st sid m2id).2 sid
            = some { s with mentor := some m2id }) := by
  constructor
  · intro m1id h1
    have hres := reassign_eq_assigned st sid m2id s m2 m1id hs hm2 h1
    have hs' : findStudentById (reassignStudentMentor st sid m2id).2 sid
        = some { s with mentor := some m2id, previousMentor := some m1id } := by
      rw [hres]
      exact findStudent_after_both_saves st s _ _ sid hs
        (by simp [findStudentById_id hs])
    refine ⟨by rw [hres], hs', ?_⟩
    intro m3id m3 hm3
    rw [reassign_eq_assigned _ sid m3id _ m3 m2id hs' hm3 rfl]

  · intro hun
    have hres := reassign_eq_unassigned st sid m2id s m2 hs hm2 hun
    refine ⟨by rw [hres], ?_⟩
    rw [hres]
    exact findStudent_after_both_saves st s _ _ sid hs
      (by simp [findStudentById_id hs])

/-- Witness for C3: "S1" assigned to "M1", reassigned to "M2" then "M3" in
the sample store: `previousMentor` holds "M1" after the first
reassignment and "M2" after the second. -/
theorem reassign_single_slot_history_witness :
    (findStudentById (assignStudentToMentor st0 "M1" "S1").2 "S1"
        = some { id := "S1", name := "Lin", mentor := some "M1", previousMentor := none }
      ∧ findMentorById (assignStudentToMentor st0 "M1" "S1").2 "M2" = some mGrace
      ∧ findMentorById
          (reassignStudentMentor (assignStudentToMentor st0 "M1" "S1").2 "S1" "M2").2 "M3"
        = some mAlan)
    ∧ ((reassignStudentMentor (assignStudentToMentor st0 "M1" "S1").2 "S1" "M2").1
          = .ok { id := "S1", name := "Lin", mentor := some "M2", previousMentor := some "M1" }
        ∧ findStudentById
            (reassignStudentMentor (assignStudentToMentor st0 "M1" "S1").2 "S1" "M2").2 "S1"
          = some { id := "S1", name := "Lin", mentor := some "M2", previousMentor := some "M1" }
        ∧ (reassignStudentMentor
            (reassignStudentMentor (assignStudentToMentor st0 "M1" "S1").2 "S1" "M2").2
            "S1" "M3").1
          = .ok { id := "S1", name := "Lin", mentor := some "M3", previousMentor := some "M2" }) := by
  refine ⟨⟨by decide, by decide, by decide⟩, ?_⟩
  have h := (reassign_single_slot_history (assignStudentToMentor st0 "M1" "S1").2 "S1" "M2"
      { id := "S1", name := "Lin", mentor := some "M1", previousMentor := none }
      mGrace (by decide) (by decide)).1 "M1" rfl
  exact ⟨h.1, h.2.1, h.2.2 "M3" mAlan (by decide)⟩

/-- C4: reassignment never touches the old mentor's document: after
reassigning a student from `m1` to a different mentor, `m1`'s lookup still
yields the very same document, whose `students` set still contains the
student id while the student now points elsewhere — so the bidirectional
consistency invariant fails in the resulting store. -/
theorem reassign_stale_old_roster (st : Store) (sid m1id m2id : DocId)
    (s : Student) (m1 m2 : Mentor)
    (hs : findStudentById st sid = some s)
    (hcur : s.mentor = some m1id)
    (hm1 : findMentorById st m1id = some m1)
    (hm2 : findMentorById st m2id = some m2)
    (hne : m1id ≠ m2id)
    (hmem : sid ∈ m1.students) :
    findMentorById (reassignStudentMentor st sid m2id).2 m1id = some m1
      ∧ sid ∈ m1.students
      ∧ findStudentById (reassignStudentMentor st sid m2id).2 sid
        = some { s with mentor := some m2id, previousMentor := some m1id }
      ∧ ¬ bidirConsistent (reassignStudentMentor st sid m2id).2 := by
  have hres := reassign_eq_assigned st sid m2id s m2 m1id hs hm2 hcur
  have hold : findMentorById (reassignStudentMentor st sid m2id).2 m1id = some m1 := by
    rw [hres, findMentorById_saveMentor_other _ _ m1id (by simp [findMentorById_id hm2]; exact hne),
      findMentorById_saveStudent, hm1]
  have hstu : findStudentById (reassignStudentMentor st sid m2id).2 sid
      = some { s with mentor := some m2id, previousMentor := some m1id } := by
    rw [hres]
    exact findStudent_after_both_saves st s _ _ sid hs
      (by simp [findStudentById_id hs])
  refine ⟨hold, hmem, hstu, ?_⟩
  intro hb
  have hm1mem : m1 ∈ (reassignStudentMentor st sid m2id).2.mentors :=
    List.mem_of_find?_eq_some hold
  obtain ⟨s2, hs2, hs2m⟩ := hb m1 hm1mem sid hmem
  rw [hstu] at hs2
  have hs2eq : s2 = { s with mentor := some m2id, previousMentor := some m1id } :=
    (Option.some_injective _ hs2).symm
  rw [hs2eq] at hs2m
  have : some m2id = some m1.id := hs2m
  have hm1id : m1.id = m1id := findMentorById_id hm1
  rw [hm1id] at this
  exact hne (Option.some_injective _ this).symm

/-- Witness for C4: "S1" assigned to "M1" then reassigned to "M2": "M1"'s
document is untouched and still lists "S1". -/
theorem reassign_stale_old_roster_witness :
    (findStudentById (assignStudentToMentor st0 "M1" "S1").2 "S1"
        = some { id := "S1", name := "Lin", mentor := some "M1", previousMentor := none }
      ∧ findMentorById (assignStudentToMentor st0 "M1" "S1").2 "M1"
        = some { id := "M1", name := "Ada", students := ["S1"] }
      ∧ findMentorById (assignStudentToMentor st0 "M1" "S1").2 "M2" = some mGrace)
    ∧ (findMentorById
          (reassignStudentMentor (assignStudentToMentor st0 "M1" "S1").2 "S1" "M2").2 "M1"
        = some { id := "M1", name := "Ada", students := ["S1"] }
      ∧ "S1" ∈ ({ id := "M1", name := "Ada", students := ["S1"] } : Mentor).students
      ∧ findStudentById
          (reassignStudentMentor (assignStudentToMentor st0 "M1" "S1").2 "S1" "M2").2 "S1"
        = some { id := "S1", name := "Lin", mentor := some "M2", previousMentor := some "M1" }
      ∧ ¬ bidirConsistent
          (reassignStudentMentor (assignStudentToMentor st0 "M1" "S1").2 "S1" "M2").2) :=
  ⟨⟨by decide, by decide, by decide⟩,
    reassign_stale_old_roster (assignStudentToMentor st0 "M1" "S1").2 "S1" "M1" "M2"
      { id := "S1", name := "Lin", mentor := some "M1", previousMentor := none }
      { id := "M1", name := "Ada", students := ["S1"] } mGrace
      (by decide) rfl (by decide) (by decide) (by decide) (by decide)⟩

/-- C5: every endpoint taking an id answers NotFound (HTTP 404) with the
store completely unchanged when a referenced id does not resolve: both
mutation handlers check existence of both documents before writing, and
the two query endpoints never mutate. -/
theorem not_found_no_mutation (st : Store) (mid sid : DocId) :
    (findMentorById st mid = none ∨ findStudentById st sid = none →
       assignStudentToMentor st mid sid = (.notFound, st)
         ∧ (assignStudentToMentor st mid sid).1.httpStatus = 404)
    ∧ (findStudentById st sid = none ∨ findMentorById st mid = none →
       reassignStudentMentor st sid mid = (.notFound, st)
         ∧ (reassignStudentMentor st sid mid).1.httpStatus = 404)
    ∧ (findMentorById st mid = none →
       studentsForMentor st mid = .notFound
         ∧ (studentsForMentor st mid).httpStatus = 404)
    ∧ (findStudentById st sid = none →
       previousMentorForStudent st sid = .notFound
         ∧ (previousMentorForStudent st sid).httpStatus = 404) := by
  refine ⟨fun h => ?_, fun h => ?_, fun h => ?_, fun h => ?_⟩
  · have he := assign_eq_notFound st mid sid h
    exact ⟨he, by rw [he]; rfl⟩
  · have he := reassign_eq_notFound st sid mid h
    exact ⟨he, by rw [he]; rfl⟩
  · have he : studentsForMentor st mid = .notFound := by
      unfold studentsForMentor
      rw [h]
    exact ⟨he, by rw [he]; rfl⟩
  · have he : previousMentorForStudent st sid = .notFound := by
      unfold previousMentorForStudent
      rw [h]
    exact ⟨he, by rw [he]; rfl⟩

/-- Witness for C5 at unknown ids "MX" and "SX" in the sample store. -/
theorem not_found_no_mutation_witness :
    (findMentorById st0 "MX" = none ∧ findStudentById st0 "SX" = none)
    ∧ (assignStudentToMentor st0 "MX" "SX" = (.notFound, st0)
        ∧ (assignStudentToMentor st0 "MX" "SX").1.httpStatus = 404)
    ∧ (reassignStudentMentor st0 "SX" "MX" = (.notFound, st0)
        ∧ (reassignStudentMentor st0 "SX" "MX").1.httpStatus = 404)
    ∧ (studentsForMentor st0 "MX" = .notFound
        ∧ (studentsForMentor st0 "MX").httpStatus = 404)
    ∧ (previousMentorForStudent st0 "SX" = .notFound
        ∧ (previousMentorForStudent st0 "SX").httpStatus = 404) :=
  ⟨⟨by decide, by decide⟩,
    (not_found_no_mutation st0 "MX" "SX").1 (Or.inl (by decide)),
    (not_found_no_mutation st0 "MX" "SX").2.1 (Or.inl (by decide)),
    (not_found_no_mutation st0 "MX" "SX").2.2.1 (by decide),
    (not_found_no_mutation st0 "MX" "SX").2.2.2 (by decide)⟩

/-- When every reference in a list resolves, `filterMap` drops nothing:
the output is pointwise the resolved document of each input id. -/
theorem forall₂_filterMap_of_isSome {α β : Type} (f : α → Option β) :
    ∀ l : List α, (∀ i ∈ l, (f i).isSome) →
      List.Forall₂ (fun i d => f i = some d) l (l.filterMap f)
  | [], _ => by simp
  | a :: as, h => by
    obtain ⟨b, hb⟩ := Option.isSome_iff_exists.mp (h a (List.mem_cons_self a as))
    rw [List.filterMap_cons, hb]
    exact List.Forall₂.cons hb
      (forall₂_filterMap_of_isSome f as (fun i hi => h i (List.mem_cons_of_mem a hi)))

/-- C6: for a mentor id that resolves, `GET /mentors/:id/students` returns
the mentor's `students` references expanded into full Student documents
(when each reference resolves, the returned array pairs up one-to-one with
the id list, each entry being the referenced document); for an id that
does not resolve it returns NotFound. -/
theorem students_for_mentor_populated (st : Store) (mid : DocId) :
    (∀ m, findMentorById st mid = some m →
       (∀ i ∈ m.students, (findStudentById st i).isSome) →
         studentsForMentor st mid = .ok (m.students.filterMap (findStudentById st))
           ∧ List.Forall₂ (fun i d => findStudentById st i = some d)
               m.students (m.students.filterMap (findStudentById st)))
    ∧ (findMentorById st mid = none → studentsForMentor st mid = .notFound) := by
  constructor
  · intro m hm hall
    constructor
    · unfold studentsForMentor
      rw [hm]
    · exact forall₂_filterMap_of_isSome _ m.students hall
  · intro hnone
    unfold studentsForMentor
    rw [hnone]

/-- Witness for C6: after assigning "S1" and "S2" to mentor "M1", the
query returns both students as full documents, in roster order. -/
theorem students_for_mentor_populated_witness :
    (findMentorById (assignStudentToMentor (assignStudentToMentor st0 "M1" "S1").2 "M1" "S2").2 "M1"
        = some { id := "M1", name := "Ada", students := ["S1", "S2"] }
      ∧ findMentorById (assignStudentToMentor (assignStudentToMentor st0 "M1" "S1").2 "M1" "S2").2 "M9"
        = none)
    ∧ (studentsForMentor
          (assignStudentToMentor (assignStudentToMentor st0 "M1" "S1").2 "M1" "S2").2 "M1"
        = .ok [{ id := "S1", name := "Lin", mentor := some "M1", previousMentor := none },
               { id := "S2", name := "Kai", mentor := some "M1", previousMentor := none }]
      ∧ studentsForMentor
          (assignStudentToMentor (assignStudentToMentor st0 "M1" "S1").2 "M1" "S2").2 "M9"
        = .notFound) := by
  refine ⟨⟨by decide, by decide⟩, ?_, ?_⟩
  · have h := ((students_for_mentor_populated
        (assignStudentToMentor (assignStudentToMentor st0 "M1" "S1").2 "M1" "S2").2 "M1").1
      { id := "M1", name := "Ada", students := ["S1", "S2"] } (by decide) (by decide)).1
    rw [h]
    decide
  · exact (students_for_mentor_populated
        (assignStudentToMentor (assignStudentToMentor st0 "M1" "S1").2 "M1" "S2").2 "M9").2
      (by decide)

/-- C7: for a student id that resolves, `GET /students/:id/previous-mentor`
answers 200 with the full Mentor document referenced by `previousMentor`
(in particular `none`/null, not an error, when the student was never
reassigned); it answers NotFound only when the student id itself does not
resolve. -/
theorem previous_mentor_query (st : Store) (sid : DocId) :
    (∀ s, findStudentById st sid = some s →
       previousMentorForStudent st sid
           = .ok (s.previousMentor.bind (findMentorById st))
         ∧ (previousMentorForStudent st sid).httpStatus = 200
         ∧ (s.previousMentor = none → previousMentorForStudent st sid = .ok none)
         ∧ (∀ pid pm, s.previousMentor = some pid → findMentorById st pid = some pm →
             previousMentorForStudent st sid = .ok (some pm)))
    ∧ (findStudentById st sid = none →
        previousMentorForStudent st sid = .notFound
          ∧ (previousMentorForStudent st sid).httpStatus = 404) := by
  constructor
  · intro s hsfind
    have he : previousMentorForStudent st sid
        = .ok (s.previousMentor.bind (findMentorById st)) := by
      unfold previousMentorForStudent
      rw [hsfind]
    refine ⟨he, by rw [he]; rfl, fun hnone => by rw [he, hnone]; rfl, ?_⟩
    intro pid pm hpid hpm
    rw [he, hpid]
    simp [hpm]
  · intro hnone
    have he : previousMentorForStudent st sid = .notFound := by
      unfold previousMentorForStudent
      rw [hnone]
    exact ⟨he, by rw [he]; rfl⟩

/-- Witness for C7: in the sample store "S1" has no previous mentor and
the query answers 200 with null; after assignment and reassignment it
answers the full document of "M1"; unknown id "SX" answers 404. -/
theorem previous_mentor_query_witness :
    (findStudentById st0 "S1" = some sLin ∧ sLin.previousMentor = none
      ∧ findStudentById st0 "SX" = none)
    ∧ (previousMentorForStudent st0 "S1" = .ok none
      ∧ (previousMentorForStudent st0 "S1").httpStatus = 200
      ∧ previousMentorForStudent st0 "SX" = .notFound
      ∧ (previousMentorForStudent st0 "SX").httpStatus = 404
      ∧ previousMentorForStudent
          (reassignStudentMentor (assignStudentToMentor st0 "M1" "S1").2 "S1" "M2").2 "S1"
        = .ok (some { id := "M1", name := "Ada", students := ["S1"] })) :=
  ⟨⟨by decide, by decide, by decide⟩,
    ((previous_mentor_query st0 "S1").1 sLin (by decide)).2.2.1 (by decide),
    ((previous_mentor_query st0 "S1").1 sLin (by decide)).2.1,
    ((previous_mentor_query st0 "SX").2 (by decide)).1,
    ((previous_mentor_query st0 "SX").2 (by decide)).2,
    ((previous_mentor_query
        (reassignStudentMentor (assignStudentToMentor st0 "M1" "S1").2 "S1" "M2").2 "S1").1
      { id := "S1", name := "Lin", mentor := some "M2", previousMentor := some "M1" }
      (by decide)).2.2.2 "M1" { id := "M1", name := "Ada", students := ["S1"] }
      (by decide) (by decide)⟩

/-- C8 counterexample: `new Model(req.body)` assigns every schema path the
caller supplies, so relationship fields are NOT empty regardless of caller
input, and a caller-supplied `_id` replaces the auto-generated one: a
`POST /students` body carrying `mentor` yields a document with `mentor`
set, a `POST /mentors` body carrying `students` yields a non-empty roster,
and a body carrying `_id` discards the generated id. -/
theorem create_honors_caller_fields :
    (createStudent st0 "S9" { mentor := some "M1" }).1.mentor ≠ none
      ∧ (createMentor st0 "M9" { students := ["S1"] }).1.students ≠ []
      ∧ (createMentor st0 "M9" { id := some "CHOSEN" }).1.id ≠ "M9" := by
  decide

/-- C8 (amended): when the caller supplies neither `_id` nor relationship
fields, the created document carries the auto-generated identifier and
empty/absent relationship fields, and the handler returns the persisted
document (the store gains exactly that document). -/
theorem create_with_default_fields (st : Store) (fm fs : DocId)
    (nm ns : Option String) :
    ((createMentor st fm { name := nm }).1.id = fm
      ∧ (createMentor st fm { name := nm }).1.students = []
      ∧ (createMentor st fm { name := nm }).2.mentors
          = st.mentors ++ [(createMentor st fm { name := nm }).1])
    ∧ ((createStudent st fs { name := ns }).1.id = fs
      ∧ (createStudent st fs { name := ns }).1.mentor = none
      ∧ (createStudent st fs { name := ns }).1.previousMentor = none
      ∧ (createStudent st fs { name := ns }).2.students
          = st.students ++ [(createStudent st fs { name := ns }).1]) :=
  ⟨⟨rfl, rfl, rfl⟩, rfl, rfl, rfl, rfl⟩

/-- C9: reassignment appends the student id to the target mentor's roster
unconditionally — no membership check — so a target roster that already
contains the id ends up with a duplicate entry (count at least two). -/
theorem reassign_appends_unconditionally (st : Store) (sid mid : DocId)
    (s : Student) (m : Mentor)
    (hs : findStudentById st sid = some s)
    (hm : findMentorById st mid = some m) :
    findMentorById (reassignStudentMentor st sid mid).2 mid
        = some { m with students := m.students ++ [sid] }
      ∧ (sid ∈ m.students →
          2 ≤ ({ m with students := m.students ++ [sid] } : Mentor).students.count sid) := by
  constructor
  · cases hms : s.mentor with
    | some cur =>
      rw [reassign_eq_assigned st sid mid s m cur hs hm hms]
      exact findMentor_after_both_saves st _ m _ mid hm (by simp [findMentorById_id hm])
    | none =>
      rw [reassign_eq_unassigned st sid mid s m hs hm hms]
      exact findMentor_after_both_saves st _ m _ mid hm (by simp [findMentorById_id hm])
  · intro hmem
    have h1 : 0 < m.students.count sid := List.count_pos_iff.mpr hmem
    have h2 : List.count sid [sid] = 1 := by simp
    simp only [List.count_append]
    omega

/-- Witness for C9: reassigning "S1" to its own current mentor "M1"
(roster already ["S1"]) duplicates the roster entry. -/
theorem reassign_appends_unconditionally_witness :
    (findStudentById (assignStudentToMentor st0 "M1" "S1").2 "S1"
        = some { id := "S1", name := "Lin", mentor := some "M1", previousMentor := none }
      ∧ findMentorById (assignStudentToMentor st0 "M1" "S1").2 "M1"
        = some { id := "M1", name := "Ada", students := ["S1"] }
      ∧ "S1" ∈ ({ id := "M1", name := "Ada", students := ["S1"] } : Mentor).students)
    ∧ (findMentorById
          (reassignStudentMentor (assignStudentToMentor st0 "M1" "S1").2 "S1" "M1").2 "M1"
        = some { id := "M1", name := "Ada", students := ["S1", "S1"] }
      ∧ 2 ≤ ({ id := "M1", name := "Ada", students := ["S1", "S1"] } : Mentor).students.count "S1") :=
  ⟨⟨by decide, by decide, by decide⟩,
    (reassign_appends_unconditionally (assignStudentToMentor st0 "M1" "S1").2 "S1" "M1"
      { id := "S1", name := "Lin", mentor := some "M1", previousMentor := none }
      { id := "M1", name := "Ada", students := ["S1"] } (by decide) (by decide)).1,
    (reassign_appends_unconditionally (assignStudentToMentor st0 "M1" "S1").2 "S1" "M1"
      { id := "S1", name := "Lin", mentor := some "M1", previousMentor := none }
      { id := "M1", name := "Ada", students := ["S1"] } (by decide) (by decide)).2
      (by decide)⟩

/-- C10: both mutation handlers touch only the two documents named by their
arguments: every student lookup other than the target student and every
mentor lookup other than the target mentor is unchanged by
`assignStudentToMentor` and by `reassignStudentMentor`. -/
theorem assignment_ops_frame (st : Store) (mid sid : DocId) :
    (∀ sid2, sid2 ≠ sid →
      findStudentById (assignStudentToMentor st mid sid).2 sid2 = findStudentById st sid2)
    ∧ (∀ mid2, mid2 ≠ mid →
      findMentorById (assignStudentToMentor st mid sid).2 mid2 = findMentorById st mid2)
    ∧ (∀ sid2, sid2 ≠ sid →
      findStudentById (reassignStudentMentor st sid mid).2 sid2 = findStudentById st sid2)
    ∧ (∀ mid2, mid2 ≠ mid →
      findMentorById (reassignStudentMentor st sid mid).2 mid2 = findMentorById st mid2) := by
  have hdesc : (assignStudentToMentor st mid sid).2 = st ∨
      ∃ s' m', s'.id = sid ∧ m'.id = mid
        ∧ (assignStudentToMentor st mid sid).2 = saveMentor (saveStudent st s') m' := by
    cases hfm : findMentorById st mid with
    | none => exact Or.inl (by rw [assign_eq_notFound st mid sid (Or.inl hfm)])
    | some m =>
      cases hfs : findStudentById st sid with
      | none => exact Or.inl (by rw [assign_eq_notFound st mid sid (Or.inr hfs)])
      | some s =>
        cases hms : s.mentor with
        | some v => exact Or.inl (by rw [assign_eq_already st mid sid m s v hfm hfs hms])
        | none =>
          refine Or.inr ⟨{ s with mentor := some mid },
            { m with students := m.students ++ [sid] },
            by simp [findStudentById_id hfs], by simp [findMentorById_id hfm], ?_⟩
          rw [assign_eq_ok st mid sid m s hfm hfs hms]
  have hdesc2 : (reassignStudentMentor st sid mid).2 = st ∨
      ∃ s' m', s'.id = sid ∧ m'.id = mid
        ∧ (reassignStudentMentor st sid mid).2 = saveMentor (saveStudent st s') m' := by
    cases hfs : findStudentById st sid with
    | none => exact Or.inl (by rw [reassign_eq_notFound st sid mid (Or.inl hfs)])
    | some s =>
      cases hfm : findMentorById st mid with
      | none => exact Or.inl (by rw [reassign_eq_notFound st sid mid (Or.inr hfm)])
      | some m =>
        cases hms : s.mentor with
        | some cur =>
          refine Or.inr ⟨{ s with mentor := some mid, previousMentor := some cur },
            { m with students := m.students ++ [sid] },
            by simp [findStudentById_id hfs], by simp [findMentorById_id hfm], ?_⟩
          rw [reassign_eq_assigned st sid mid s m cur hfs hfm hms]
        | none =>
          refine Or.inr ⟨{ s with mentor := some mid },
            { m with students := m.students ++ [sid] },
            by simp [findStudentById_id hfs], by simp [findMentorById_id hfm], ?_⟩
          rw [reassign_eq_unassigned st sid mid s m hfs hfm hms]
  refine ⟨fun sid2 h2 => ?_, fun mid2 h3 => ?_, fun sid2 h2 => ?_, fun mid2 h3 => ?_⟩
  · rcases hdesc with h | ⟨s', m', hsid', hmid', h⟩
    · rw [h]
    · rw [h, findStudentById_saveMentor,
        findStudentById_saveStudent_other st s' sid2 (by rw [hsid']; exact h2)]
  · rcases hdesc with h | ⟨s', m', hsid', hmid', h⟩
    · rw [h]
    · rw [h, findMentorById_saveMentor_other _ _ mid2 (by rw [hmid']; exact h3),
        findMentorById_saveStudent]
  · rcases hdesc2 with h | ⟨s', m', hsid', hmid', h⟩
    · rw [h]
    · rw [h, findStudentById_saveMentor,
        findStudentById_saveStudent_other st s' sid2 (by rw [hsid']; exact h2)]
  · rcases hdesc2 with h | ⟨s', m', hsid', hmid', h⟩
    · rw [h]
    · rw [h, findMentorById_saveMentor_other _ _ mid2 (by rw [hmid']; exact h3),
        findMentorById_saveStudent]

/-- Witness for C10: assigning/reassigning "S1" and "M1" in the sample
store leaves student "S2" and mentor "M2" lookups unchanged. -/
theorem assignment_ops_frame_witness :
    (findStudentById (assignStudentToMentor st0 "M1" "S1").2 "S2" = findStudentById st0 "S2")
    ∧ (findMentorById (assignStudentToMentor st0 "M1" "S1").2 "M2" = findMentorById st0 "M2")
    ∧ (findStudentById (reassignStudentMentor st0 "S1" "M1").2 "S2" = findStudentById st0 "S2")
    ∧ (findMentorById (reassignStudentMentor st0 "S1" "M1").2 "M2" = findMentorById st0 "M2") :=
  ⟨(assignment_ops_frame st0 "M1" "S1").1 "S2" (by decide),
    (assignment_ops_frame st0 "M1" "S1").2.1 "M2" (by decide),
    (assignment_ops_frame st0 "M1" "S1").2.2.1 "S2" (by decide),
    (assignment_ops_frame st0 "M1" "S1").2.2.2 "M2" (by decide)⟩

end MentorStudentApi
